import Mathlib

/-!
Verification of the core of `src/app.py`: the PIN authentication / lockout
state machine (`authenticate_user` and its helpers), the S3 image-listing
projection (`list_images`), the pager (`paginate_images`), and the thumbnail
pipeline (`get_image_thumbnail` / `get_fullscreen_image`).

Conventions of the embedding:
* Wall-clock instants are natural numbers of seconds (`datetime` values in the
  Python code; differences and comparisons are exact integer seconds here).
* Streamlit's `st.session_state` fields `authenticated`, `auth_time`,
  `failed_attempts`, `lockout_until` become the `Session` record; one run of
  `authenticate_user` becomes a pure function from (session, now, optional
  submitted PIN) to (new session, user-visible decision).
* SHA-256 is not modelled bit-for-bit: the code only ever compares
  `hash_pin(input) == hash_pin(APP_PIN)` for equality, so the hash is a
  parameter `h : String → String` of the gate and theorems are stated for an
  arbitrary `h`.
* The S3 SDK and PIL are external collaborators; their call results enter the
  embedding as explicit inputs (`ListResult`, a fetched byte payload, a
  `decode` function), and the one piece of library behaviour a claim depends
  on — `PIL.Image.thumbnail`'s output size — is reproduced from Pillow's
  source with exact rationals in place of IEEE floats.
-/

namespace SDH

/-! ## Security configuration (src/app.py lines 22-25) -/

/-- `MAX_ATTEMPTS = 5` — maximum login attempts (line 23). -/
def MAX_ATTEMPTS : Nat := 5

/-- `LOCKOUT_DURATION = 60*60` seconds (line 24). -/
def LOCKOUT_DURATION : Nat := 60 * 60

/-- `SESSION_TIMEOUT = 3600*12` seconds (line 25). -/
def SESSION_TIMEOUT : Nat := 3600 * 12

/-! ## Auth session state -/

/-- The security-related `st.session_state` fields, as initialized by
`initialize_security_state` (lines 242-251): `authenticated : bool`,
`auth_time : datetime | None`, `failed_attempts : int`,
`lockout_until : datetime | None`. -/
structure Session where
  authenticated : Bool
  auth_time : Option Nat
  failed_attempts : Nat
  lockout_until : Option Nat
deriving DecidableEq

/-- The initial session produced by `initialize_security_state`
(lines 242-251): unauthenticated, no auth time, zero failures, no lockout. -/
def initial_session : Session :=
  { authenticated := false
    auth_time := none
    failed_attempts := 0
    lockout_until := none }

/-- The user-visible outcome of one run of `authenticate_user`:
either access is granted (`return True`), or one of the code's distinct
denial messages is shown. -/
inductive Decision where
  /-- `return True` — access granted (line 283 or the success branch 325-333). -/
  | granted
  /-- "Session expired. Please log in again." (line 278). -/
  | sessionExpired
  /-- "Too many failed attempts …" with the reported number of seconds
  (line 292, and line 341 at the moment the lockout is stamped). -/
  | deniedLockedOut (secondsRemaining : Nat)
  /-- The login form is shown and no PIN was submitted. -/
  | requiresPin
  /-- "Please enter a PIN." (line 318). -/
  | deniedNoPin
  /-- "Incorrect PIN. N attempts remaining." (line 344). -/
  | deniedBadPin (attemptsRemaining : Nat)
deriving DecidableEq

/-- The four conceptual states of the auth gate, derived from a `Session`
record and the clock exactly in the order the code tests them:
`authenticated` first (lines 275, 282), then the lockout window (line 290). -/
inductive AuthState where
  | LoggedOut
  | LockedOut
  | Authenticated
  | Expired
deriving DecidableEq

/-- `is_session_expired` (lines 264-268): expired iff
`now - auth_time > SESSION_TIMEOUT`; an absent `auth_time` counts as
expired (`return True` at line 268). -/
def is_session_expired (s : Session) (now : Nat) : Bool :=
  match s.auth_time with
  | some t => decide (SESSION_TIMEOUT < now - t)
  | none => true

/-- `is_locked_out` (lines 253-262). Returns the boolean answer together
with the (possibly mutated) session: when the stamp is present but the
window has passed, the function itself clears `lockout_until` and resets
`failed_attempts` to 0 (lines 260-261). -/
def is_locked_out (s : Session) (now : Nat) : Bool × Session :=
  match s.lockout_until with
  | some t =>
      if now < t then (true, s)
      else (false, { s with lockout_until := none, failed_attempts := 0 })
  | none => (false, s)

/-- One run of `authenticate_user` (lines 270-349) as a pure transition
function.  `h` is the PIN hash (`hash_pin`, line 230-232) and `c` the
configured PIN from the environment (`get_correct_pin_hash` compares
`h input = h c`, lines 322-325).  `pin = none` means the form was shown
without a submission; `pin = some p` is a submitted PIN (the empty
submission is rejected first, lines 317-319). -/
def authenticate_user (h : String → String) (c : String) (s : Session)
    (now : Nat) (pin : Option String) : Session × Decision :=
  -- lines 275-279: expired authenticated session degrades to logged out
  if s.authenticated && is_session_expired s now then
    ({ s with authenticated := false, auth_time := none }, .sessionExpired)
  -- lines 282-283: authenticated and still valid
  else if s.authenticated && !is_session_expired s now then
    (s, .granted)
  else
    -- lines 290-297: lockout window check (with its internal reset)
    let ls := is_locked_out s now
    if ls.1 then
      (ls.2, .deniedLockedOut (s.lockout_until.getD now - now))
    else
      match pin with
      | none => (ls.2, .requiresPin)
      | some p =>
        -- lines 317-319: empty submission
        if p = "" then (ls.2, .deniedNoPin)
        -- lines 322-333: hash comparison and successful login
        else if h p = h c then
          let s2 : Session :=
            { authenticated := true
              auth_time := some now
              failed_attempts := 0
              lockout_until := none }
          (s2, .granted)
        else
          -- lines 334-347: failed login, possible lockout
          let fa := ls.2.failed_attempts + 1
          if MAX_ATTEMPTS ≤ fa then
            let s2 : Session :=
              { ls.2 with
                failed_attempts := fa
                lockout_until := some (now + LOCKOUT_DURATION) }
            (s2, .deniedLockedOut LOCKOUT_DURATION)
          else
            ({ ls.2 with failed_attempts := fa },
             .deniedBadPin (MAX_ATTEMPTS - fa))

/-- `logout_user` (lines 351-357): explicit logout clears all four fields. -/
def logout_user (_s : Session) : Session := initial_session

/-- The conceptual state of a session record at instant `now`, derived in
the order the code tests the record. -/
def sessionState (s : Session) (now : Nat) : AuthState :=
  if s.authenticated then
    if is_session_expired s now then .Expired else .Authenticated
  else
    match s.lockout_until with
    | some t => if now < t then .LockedOut else .LoggedOut
    | none => .LoggedOut

/-- A sequence of PIN submissions: each list element is (instant, PIN),
fed through `authenticate_user` in order, keeping the session. -/
def submitSeq (h : String → String) (c : String) (s : Session) :
    List (Nat × String) → Session
  | [] => s
  | e :: rest => submitSeq h c (authenticate_user h c s e.1 (some e.2)).1 rest

/-! ## Pager (src/app.py lines 541-545) -/

/-- `paginate_images(images, page, per_page)` returns
`images[page*per_page : page*per_page + per_page], len(images)`.
The Python slice of a list with non-negative bounds is drop-then-take. -/
def paginate_images {α : Type} (images : List α) (page per_page : Nat) :
    List α × Nat :=
  ((images.drop (page * per_page)).take per_page, images.length)

/-- Total number of pages, `ceil(total / per_page)` (spec §4.4); for
`total ≥ 1` this equals the UI's `(total - 1) // per_page + 1` (line 677),
and for `total = 0` it is 0, matching Python floor division there. -/
def total_pages (total per_page : Nat) : Nat :=
  (total + per_page - 1) / per_page

/-! ## Python string primitives used by the listing code

`str.lower`, `str.endswith` and `str.split('/')` are embedded structurally
(keys are ASCII object paths, so `lower` is ASCII lowercasing). -/

/-- ASCII lowercasing of one character, as `str.lower` acts on ASCII. -/
def pyLowerChar (c : Char) : Char :=
  if 'A' ≤ c ∧ c ≤ 'Z' then Char.ofNat (c.toNat + 32) else c

/-- `s.lower()` on an ASCII string. -/
def py_lower (s : String) : String := ⟨s.data.map pyLowerChar⟩

/-- `s.endswith(suff)`. -/
def py_endswith (s suff : String) : Bool := suff.data.isSuffixOf s.data

/-- `s.split(sep)` on a list of characters: Python semantics, always at
least one (possibly empty) group. -/
def pySplit (sep : Char) : List Char → List (List Char)
  | [] => [[]]
  | ch :: rest =>
      match pySplit sep rest with
      | g :: gs => if ch = sep then [] :: g :: gs else (ch :: g) :: gs
      | [] => [[]]

/-- `key.split('/')[-1]` — the last path segment (line 419). -/
def py_basename (s : String) : String := ⟨(pySplit '/' s.data).getLastD []⟩

/-! ## Image listing (src/app.py lines 394-425) -/

/-- One entry of `response['Contents']` from `list_objects_v2`:
`Key`, `Size`, `LastModified` (modelled as seconds). -/
structure S3Object where
  key : String
  size : Nat
  last_modified : Nat
deriving DecidableEq

/-- An element of the list built by `list_images` (lines 415-420). -/
structure ImageEntry where
  key : String
  size : Nat
  last_modified : Nat
  filename : String
deriving DecidableEq

/-- The extension allow-list of line 413. -/
def IMAGE_EXTENSIONS : List String :=
  [".jpg", ".jpeg", ".png", ".gif", ".bmp", ".webp"]

/-- The filter of lines 413-414: `key.lower().endswith((…)) and Size > 0`. -/
def is_image_object (o : S3Object) : Bool :=
  IMAGE_EXTENSIONS.any (fun ext => py_endswith (py_lower o.key) ext)
    && decide (0 < o.size)

/-- The dict built at lines 415-420. -/
def mkImageEntry (o : S3Object) : ImageEntry :=
  { key := o.key, size := o.size, last_modified := o.last_modified,
    filename := py_basename o.key }

/-- The outcome of the `list_objects_v2` call as `list_images` sees it:
a successful response's `Contents` (absent `Contents` is the empty list;
the gateway returns at most the requested `MaxKeys` entries), a
`ClientError`, or no S3 client at all (lines 397-399). -/
inductive ListResult where
  | ok (contents : List S3Object)
  | clientError (msg : String)
  | noClient
deriving DecidableEq

/-- `sorted(images, key=λx. x['last_modified'], reverse=True)` sorts by
`last_modified` descending; Python's sort is stable, as is insertion sort
with this relation. -/
def by_recent (a b : ImageEntry) : Prop :=
  b.last_modified ≤ a.last_modified

instance : DecidableRel by_recent := fun _ _ => Nat.decLe _ _

instance : IsTotal ImageEntry by_recent :=
  ⟨fun a b => le_total b.last_modified a.last_modified⟩

instance : IsTrans ImageEntry by_recent :=
  ⟨fun _ _ _ hab hbc => le_trans hbc hab⟩

/-- `list_images` (lines 394-425): filter the response's contents to
positive-size image keys, project each to an `ImageEntry`, sort by
`last_modified` descending; a `ClientError` yields the empty list plus the
`st.error` warning text (lines 423-425), and a missing client yields the
empty list (lines 398-399).  The second component is the surfaced warning,
if any. -/
def list_images (resp : ListResult) : List ImageEntry × Option String :=
  match resp with
  | .noClient => ([], none)
  | .clientError e => ([], some ("Error listing images: " ++ e))
  | .ok contents =>
      (List.insertionSort by_recent
        ((contents.filter is_image_object).map mkImageEntry), none)

/-! ## Thumbnail pipeline (src/app.py lines 427-518)

A decoded PIL image is abstracted to its mode and pixel dimensions; the
`decode` parameter stands for `Image.open` (`none` = decode failure), and
the fetched S3 payload enters as an `Except` (`.error` = `ClientError` or
any other exception from the gateway, both of which the code catches). -/

/-- A decoded image: `image.mode`, `image.size`. -/
structure PILImage where
  mode : String
  width : Nat
  height : Nat
deriving DecidableEq

/-- `MAX_IMAGE_SIZE = (400, 400)` (line 19). -/
def MAX_IMAGE_SIZE : Nat × Nat := (400, 400)

/-- `FULLSCREEN_IMAGE_SIZE = (1440, 1440)` (line 20). -/
def FULLSCREEN_IMAGE_SIZE : Nat × Nat := (1440, 1440)

/-- Pillow's `round_aspect(number, key)` from `Image.thumbnail`:
`max(min(floor(number), ceil(number), key=key), 1)` — the rounding of
`number` whose `key` is smaller (floor on ties), and at least 1. -/
def round_aspect (q : ℚ) (key : ℤ → ℚ) : ℤ :=
  max (if key ⌊q⌋ ≤ key ⌈q⌉ then ⌊q⌋ else ⌈q⌉) 1

/-- The output dimensions of Pillow's `Image.thumbnail((x, y))` on a
`w × h` image, reproduced from Pillow's source with exact rationals for
the float arithmetic: unchanged when already within bounds, otherwise the
aspect ratio `w / h` is preserved with one side set to its bound. -/
def pil_thumbnail_size (w h x y : Nat) : Nat × Nat :=
  if w ≤ x ∧ h ≤ y then (w, h)
  else
    let aspect : ℚ := (w : ℚ) / (h : ℚ)
    if aspect ≤ (x : ℚ) / (y : ℚ) then
      ((round_aspect ((y : ℚ) * aspect)
          (fun n => |aspect - (n : ℚ) / (y : ℚ)|)).toNat, y)
    else
      (x, (round_aspect ((x : ℚ) / aspect)
          (fun n => if n = 0 then 0 else |aspect - (x : ℚ) / (n : ℚ)|)).toNat)

/-- `image.thumbnail((x, y), LANCZOS)`: dimensions change per
`pil_thumbnail_size`, the mode is untouched. -/
def pil_thumbnail (img : PILImage) (x y : Nat) : PILImage :=
  let d := pil_thumbnail_size img.width img.height x y
  { img with width := d.1, height := d.2 }

/-- Lines 450-451 / 500-501: `if image.mode not in ('RGB', 'L'):
image = image.convert('RGB')`. -/
def convert_for_jpeg (img : PILImage) : PILImage :=
  if img.mode = "RGB" ∨ img.mode = "L" then img else { img with mode := "RGB" }

/-- The value returned to the caller on success: the processed image's mode
and dimensions together with the encoder arguments of the `image.save`
call (`format='JPEG', quality=…, optimize=True`), the resampling filter
passed to `thumbnail` (`Image.Resampling.LANCZOS`), and the fact that the
bytes are base64-encoded before being returned (line 459 / 510).
The pixel payload itself is outside the embedding. -/
structure EncodedImage where
  mode : String
  width : Nat
  height : Nat
  resample : String
  format : String
  quality : Nat
  optimize : Bool
  base64 : Bool
deriving DecidableEq

/-- `get_image_thumbnail` (lines 427-476): a transport error (or missing
client) yields `none`; an empty payload yields `none` (lines 440-442); a
decode failure yields `none` (lines 463-467); otherwise the image is
normalized to RGB when its mode is neither RGB nor L, bounded by
`MAX_IMAGE_SIZE` via `thumbnail(…, LANCZOS)`, and saved as JPEG with
`quality=85, optimize=True`, returned base64-encoded. -/
def get_image_thumbnail (decode : List Nat → Option PILImage)
    (fetch : Except String (List Nat)) : Option EncodedImage :=
  match fetch with
  | .error _ => none
  | .ok image_data =>
      if image_data.length = 0 then none
      else
        match decode image_data with
        | none => none
        | some img0 =>
            let img1 := convert_for_jpeg img0
            let img2 := pil_thumbnail img1 MAX_IMAGE_SIZE.1 MAX_IMAGE_SIZE.2
            some { mode := img2.mode, width := img2.width,
                   height := img2.height, resample := "LANCZOS",
                   format := "JPEG", quality := 85, optimize := true,
                   base64 := true }

/-- `get_fullscreen_image` (lines 478-518): as `get_image_thumbnail` but
the resize only happens when a dimension exceeds `FULLSCREEN_IMAGE_SIZE`
(lines 504-505) and the JPEG quality is 95 (line 509). -/
def get_fullscreen_image (decode : List Nat → Option PILImage)
    (fetch : Except String (List Nat)) : Option EncodedImage :=
  match fetch with
  | .error _ => none
  | .ok image_data =>
      if image_data.length = 0 then none
      else
        match decode image_data with
        | none => none
        | some img0 =>
            let img1 := convert_for_jpeg img0
            let img2 :=
              if FULLSCREEN_IMAGE_SIZE.1 < img1.width ∨
                  FULLSCREEN_IMAGE_SIZE.2 < img1.height then
                pil_thumbnail img1 FULLSCREEN_IMAGE_SIZE.1 FULLSCREEN_IMAGE_SIZE.2
              else img1
            some { mode := img2.mode, width := img2.width,
                   height := img2.height, resample := "LANCZOS",
                   format := "JPEG", quality := 95, optimize := true,
                   base64 := true }

/-! ## Auth gate lemmas -/

/-- One wrong, non-empty PIN against a logged-out record with no lockout
stamp and `k` prior failures, while `k + 1` stays below `MAX_ATTEMPTS`:
the counter increments and the bad-PIN denial reports the remainder. -/
theorem auth_wrong_below (h : String → String) (c : String) (a : Option Nat)
    (k now : Nat) (p : String) (hp : p ≠ "") (hw : ¬ h p = h c)
    (hk : k + 1 < MAX_ATTEMPTS) :
    authenticate_user h c ⟨false, a, k, none⟩ now (some p) =
      (⟨false, a, k + 1, none⟩, .deniedBadPin (MAX_ATTEMPTS - (k + 1))) := by
  have hk' : ¬ (MAX_ATTEMPTS ≤ k + 1) := Nat.not_le.mpr hk
  simp [authenticate_user, is_locked_out, hp, hw, hk']

/-- One wrong, non-empty PIN that brings the counter up to `MAX_ATTEMPTS`
stamps `lockout_until = now + LOCKOUT_DURATION`. -/
theorem auth_wrong_locks (h : String → String) (c : String) (a : Option Nat)
    (k now : Nat) (p : String) (hp : p ≠ "") (hw : ¬ h p = h c)
    (hk : MAX_ATTEMPTS ≤ k + 1) :
    authenticate_user h c ⟨false, a, k, none⟩ now (some p) =
      (⟨false, a, k + 1, some (now + LOCKOUT_DURATION)⟩,
        .deniedLockedOut LOCKOUT_DURATION) := by
  simp [authenticate_user, is_locked_out, hp, hw, hk]

/-- A streak of wrong, non-empty PINs that never reaches the maximum just
accumulates in `failed_attempts`. -/
theorem submitSeq_wrong (h : String → String) (c : String)
    (l : List (Nat × String)) :
    ∀ (a : Option Nat) (k : Nat),
      (∀ e ∈ l, e.2 ≠ "" ∧ ¬ h e.2 = h c) → k + l.length < MAX_ATTEMPTS →
      submitSeq h c ⟨false, a, k, none⟩ l = ⟨false, a, k + l.length, none⟩ := by
  induction l with
  | nil => intro a k _ _; simp [submitSeq]
  | cons e rest ih =>
      intro a k hall hlen
      have he := hall e (List.mem_cons_self e rest)
      have hstep := auth_wrong_below h c a k e.1 e.2 he.1 he.2
        (by simp at hlen ⊢; omega)
      have hrest : ∀ x ∈ rest, x.2 ≠ "" ∧ ¬ h x.2 = h c :=
        fun x hx => hall x (List.mem_cons_of_mem e hx)
      simp only [submitSeq, hstep]
      have := ih a (k + 1) hrest (by simp at hlen ⊢; omega)
      simpa [Nat.add_assoc, Nat.add_comm 1 rest.length] using this

/-- C1: from a freshly logged-out session (zero recorded failures, no
lockout stamp — the state every transition into `LoggedOut` produces),
`n` consecutive wrong-PIN submissions with `n < MAX_ATTEMPTS` leave the
session `LoggedOut` with `failed_attempts = n` (so `MAX_ATTEMPTS - n`
attempts remaining) and no lockout stamp; a further wrong submission as
the `MAX_ATTEMPTS`-th (from a streak of `MAX_ATTEMPTS - 1`) stamps
`lockout_until = now + LOCKOUT_DURATION` and reports the lockout. -/
theorem C1_consecutive_wrong_pins (h : String → String) (c : String)
    (a : Option Nat) (l : List (Nat × String))
    (hall : ∀ e ∈ l, e.2 ≠ "" ∧ ¬ h e.2 = h c) :
    (l.length < MAX_ATTEMPTS →
      submitSeq h c ⟨false, a, 0, none⟩ l = ⟨false, a, l.length, none⟩ ∧
      (∀ now2, sessionState ⟨false, a, l.length, none⟩ now2 = .LoggedOut)) ∧
    (∀ now p, l.length + 1 < MAX_ATTEMPTS → p ≠ "" → ¬ h p = h c →
      authenticate_user h c (submitSeq h c ⟨false, a, 0, none⟩ l) now (some p) =
        (⟨false, a, l.length + 1, none⟩,
          .deniedBadPin (MAX_ATTEMPTS - (l.length + 1)))) ∧
    (∀ now p, l.length = MAX_ATTEMPTS - 1 → p ≠ "" → ¬ h p = h c →
      authenticate_user h c (submitSeq h c ⟨false, a, 0, none⟩ l) now (some p) =
        (⟨false, a, MAX_ATTEMPTS, some (now + LOCKOUT_DURATION)⟩,
          .deniedLockedOut LOCKOUT_DURATION)) := by
  refine ⟨fun hlen => ?_, fun now p hlen hp hw => ?_, fun now p hlen hp hw => ?_⟩
  · have h0 := submitSeq_wrong h c l a 0 hall (by omega)
    rw [Nat.zero_add] at h0
    exact ⟨h0, fun now2 => by simp [sessionState]⟩
  · have h0 := submitSeq_wrong h c l a 0 hall (by omega)
    rw [Nat.zero_add] at h0
    rw [h0]
    exact auth_wrong_below h c a l.length now p hp hw (by omega)
  · have hM : l.length + 1 = MAX_ATTEMPTS := by
      simp only [MAX_ATTEMPTS] at hlen ⊢; omega
    have h0 := submitSeq_wrong h c l a 0 hall (by omega)
    rw [Nat.zero_add] at h0
    rw [h0]
    have hstep := auth_wrong_locks h c a l.length now p hp hw (by omega)
    rw [hstep, hM]

/-- Concrete C1 run: four wrong PINs "0000" against "1234" leave four
recorded failures, and the fifth locks the session out for 3600 seconds. -/
theorem C1_witness :
    (submitSeq id "1234" ⟨false, none, 0, none⟩
        [(0, "0000"), (1, "0000"), (2, "0000"), (3, "0000")] =
      ⟨false, none, 4, none⟩) ∧
    (authenticate_user id "1234"
        (submitSeq id "1234" ⟨false, none, 0, none⟩
          [(0, "0000"), (1, "0000"), (2, "0000"), (3, "0000")]) 100
        (some "0000") =
      (⟨false, none, MAX_ATTEMPTS, some (100 + LOCKOUT_DURATION)⟩,
        .deniedLockedOut LOCKOUT_DURATION)) := by
  have h := C1_consecutive_wrong_pins id "1234" none
    [(0, "0000"), (1, "0000"), (2, "0000"), (3, "0000")] (by decide)
  exact ⟨((h.1 (by decide)).1 : _), h.2.2 100 "0000" (by decide) (by decide)
    (by decide)⟩

/-- C2: for a session in the `LockedOut` state (not authenticated,
`lockout_until = some t`): while `now < t` every check — with or without a
submitted PIN — is denied with the remaining `t - now` seconds and the
record (in particular `failed_attempts`) is untouched; at the first check
with `t ≤ now` the stamp is cleared, `failed_attempts` resets to 0, and
the session is back in `LoggedOut`. -/
theorem C2_lockout_window (h : String → String) (c : String) (s : Session)
    (t now : Nat) (pin : Option String)
    (hauth : s.authenticated = false) (hl : s.lockout_until = some t) :
    (now < t →
      sessionState s now = .LockedOut ∧
      authenticate_user h c s now pin = (s, .deniedLockedOut (t - now))) ∧
    (t ≤ now →
      authenticate_user h c s now none =
        ({ s with failed_attempts := 0, lockout_until := none },
          .requiresPin) ∧
      sessionState { s with failed_attempts := 0, lockout_until := none }
        now = .LoggedOut) := by
  constructor
  · intro hnow
    constructor
    · simp [sessionState, hauth, hl, hnow]
    · simp [authenticate_user, is_locked_out, hauth, hl, hnow]
  · intro hnow
    have hnow' : ¬ now < t := Nat.not_lt.mpr hnow
    constructor
    · simp [authenticate_user, is_locked_out, hauth, hl, hnow']
    · simp [sessionState, hauth]

/-- Concrete C2 run: a session locked out until instant 1000, checked at
instant 400, is denied with 600 seconds remaining and left untouched;
checked at instant 1000 it returns to `LoggedOut` with the counter reset. -/
theorem C2_witness :
    (sessionState ⟨false, none, 5, some 1000⟩ 400 = .LockedOut ∧
      authenticate_user id "1234" ⟨false, none, 5, some 1000⟩ 400
        (some "0000") =
        (⟨false, none, 5, some 1000⟩, .deniedLockedOut (1000 - 400))) ∧
    (authenticate_user id "1234" ⟨false, none, 5, some 1000⟩ 1000 none =
      (⟨false, none, 0, none⟩, .requiresPin)) := by
  have h4 := C2_lockout_window id "1234" ⟨false, none, 5, some 1000⟩ 1000 400
    (some "0000") rfl rfl
  have h10 := C2_lockout_window id "1234" ⟨false, none, 5, some 1000⟩ 1000 1000
    none rfl rfl
  exact ⟨h4.1 (by decide), ((h10.2 (by decide)).1 : _)⟩

/-- C3 counterexample: an authenticated session with three recorded
failures, checked 43201 seconds after `auth_time`, is expired — but
`failed_attempts` is NOT reset to 0 as the claim's "reset to its initial
state" demands: lines 276-277 only clear `authenticated` and `auth_time`. -/
theorem C3_counterexample :
    (authenticate_user id "1234" ⟨true, some 0, 3, none⟩ 43201
        none).1.failed_attempts ≠ 0 := by decide

/-- C3 (amended): an authenticated session whose age exceeds
`SESSION_TIMEOUT` never stays `Authenticated` on the next check: it is in
the `Expired` state, the check returns the session-expired signal and
clears `authenticated` and `auth_time` — while `failed_attempts` and
`lockout_until` keep their prior values (both are 0 / absent in any
session that reached `Authenticated` through a login, which resets them).
With no lockout stamp the resulting record is in `LoggedOut`. -/
theorem C3_session_expiry (h : String → String) (c : String) (s : Session)
    (t now : Nat) (pin : Option String) (hauth : s.authenticated = true)
    (ht : s.auth_time = some t) (hexp : SESSION_TIMEOUT < now - t) :
    sessionState s now = .Expired ∧
    authenticate_user h c s now pin =
      ({ s with authenticated := false, auth_time := none },
        .sessionExpired) ∧
    (s.lockout_until = none →
      sessionState { s with authenticated := false, auth_time := none }
        now = .LoggedOut) := by
  have hex : is_session_expired s now = true := by
    simp [is_session_expired, ht, hexp]
  refine ⟨by simp [sessionState, hauth, hex], ?_, fun hl => ?_⟩
  · simp [authenticate_user, hauth, hex]
  · simp [sessionState, hl]

/-- Concrete C3 run: the expired session of the counterexample input is
reported expired and logged out, with `failed_attempts` kept at 3. -/
theorem C3_witness :
    sessionState ⟨true, some 0, 3, none⟩ 43201 = .Expired ∧
    authenticate_user id "1234" ⟨true, some 0, 3, none⟩ 43201 none =
      (⟨false, none, 3, none⟩, .sessionExpired) := by
  have h := C3_session_expiry id "1234" ⟨true, some 0, 3, none⟩ 0 43201 none
    rfl rfl (by decide)
  exact ⟨h.1, h.2.1⟩

/-- C4 counterexample: a session that is already authenticated (and not
expired) is "not in the LockedOut window" and has `failed_attempts` below
the maximum, yet submitting the correct PIN does not set `auth_time := now`:
line 283 returns before the login form, leaving the record untouched. -/
theorem C4_counterexample :
    (authenticate_user id "1234" ⟨true, some 0, 0, none⟩ 5
        (some "1234")).1.auth_time ≠ some 5 := by decide

/-- C4 (amended): for every session that is NOT authenticated, not inside
a lockout window (no stamp, or a stamp already in the past), and with
`failed_attempts` below `MAX_ATTEMPTS`, submitting a non-empty PIN whose
hash matches the configured PIN's hash yields `Authenticated` with
`auth_time = now`, `failed_attempts = 0` and no lockout stamp. -/
theorem C4_correct_pin (h : String → String) (c : String) (s : Session)
    (now : Nat) (p : String) (hauth : s.authenticated = false)
    (hlock : ∀ u, s.lockout_until = some u → u ≤ now)
    (_hfail : s.failed_attempts < MAX_ATTEMPTS)
    (hp : p ≠ "") (hm : h p = h c) :
    authenticate_user h c s now (some p) =
      (⟨true, some now, 0, none⟩, .granted) ∧
    sessionState ⟨true, some now, 0, none⟩ now = .Authenticated := by
  constructor
  · cases hsl : s.lockout_until with
    | none => simp [authenticate_user, is_locked_out, hauth, hsl, hp, hm]
    | some u =>
        have hu : ¬ now < u := Nat.not_lt.mpr (hlock u hsl)
        simp [authenticate_user, is_locked_out, hauth, hsl, hu, hp, hm]
  · simp [sessionState, is_session_expired, Nat.sub_self]

/-- Concrete C4 run: a logged-out session with 3 failures and an expired
lockout stamp, given the correct PIN at instant 50, authenticates with
`auth_time = 50` and everything reset. -/
theorem C4_witness :
    authenticate_user id "1234" ⟨false, none, 3, some 40⟩ 50 (some "1234") =
      (⟨true, some 50, 0, none⟩, .granted) := by
  have h := C4_correct_pin id "1234" ⟨false, none, 3, some 40⟩ 50 "1234" rfl
    (by intro u hu; injection hu with hu; omega) (by decide) (by decide) rfl
  exact h.1

/-- C10 counterexample: with an expired lockout stamp still on the record,
an empty submission does NOT leave every field unchanged — the lockout
check at lines 290, 259-261 clears `failed_attempts` and `lockout_until`
before the empty PIN is rejected. -/
theorem C10_counterexample :
    (authenticate_user id "1234" ⟨false, none, 5, some 10⟩ 10
        (some "")).1 ≠ (⟨false, none, 5, some 10⟩ : Session) := by decide

/-- C10 (amended): for every session that is not authenticated and has no
lockout stamp (`lockout_until = none` — the only situation in which the
login form is reachable with the record as it stands), submitting an empty
PIN is denied with the no-PIN message and leaves the session exactly as it
was: in particular it does not count as a failed attempt. -/
theorem C10_empty_pin (h : String → String) (c : String) (s : Session)
    (now : Nat) (hauth : s.authenticated = false)
    (hl : s.lockout_until = none) :
    authenticate_user h c s now (some "") = (s, .deniedNoPin) := by
  simp [authenticate_user, is_locked_out, hauth, hl]

/-- Concrete C10 run: an empty submission against a logged-out session
with two failures is denied with the no-PIN message and changes nothing. -/
theorem C10_witness :
    authenticate_user id "1234" ⟨false, none, 2, none⟩ 7 (some "") =
      (⟨false, none, 2, none⟩, .deniedNoPin) :=
  C10_empty_pin id "1234" ⟨false, none, 2, none⟩ 7 rfl rfl

/-! ## Pager lemmas -/

/-- Peeling one page off the page count of a non-empty list. -/
theorem total_pages_succ (n s : Nat) (hs : 0 < s) (hn : 0 < n) :
    total_pages n s = total_pages (n - s) s + 1 := by
  unfold total_pages
  have h1 : n + s - 1 = (n - 1) + s := by omega
  rw [h1, Nat.add_div_right _ hs]
  rcases le_or_lt n s with hns | hns
  · have h2 : n - s = 0 := by omega
    have h3 : (n - 1) / s = 0 := Nat.div_eq_of_lt (by omega)
    have h4 : (0 + s - 1) / s = 0 := Nat.div_eq_of_lt (by omega)
    rw [h2, h3, h4]
  · have h2 : n - s + s - 1 = (n - 1 - s) + s := by omega
    rw [h2, Nat.add_div_right _ hs]
    have h3 : n - 1 - s + s = n - 1 := by omega
    conv_lhs => rw [← h3, Nat.add_div_right _ hs]

/-- A page index at or past `total_pages` addresses only dropped elements. -/
theorem length_le_mul_of_pages_le (n s p : Nat) (hs : 0 < s)
    (hp : total_pages n s ≤ p) : n ≤ p * s := by
  by_contra hlt
  push_neg at hlt
  have h1 : p + 1 ≤ (n + s - 1) / s := by
    rw [Nat.le_div_iff_mul_le hs]
    have h2 : (p + 1) * s = p * s + s := by rw [Nat.succ_mul]
    omega
  unfold total_pages at hp
  omega

/-- Concatenating the `total_pages` successive size-`s` slices of a list
reconstructs it. -/
theorem pages_flatten {α : Type} (s : Nat) (hs : 0 < s) :
    ∀ (n : Nat) (l : List α), l.length ≤ n →
      ((List.range (total_pages l.length s)).map
        (fun p => (l.drop (p * s)).take s)).flatten = l := by
  intro n
  induction n with
  | zero =>
      intro l hl
      have h0 : l = [] := List.eq_nil_of_length_eq_zero (Nat.le_zero.mp hl)
      subst h0
      have ht : total_pages 0 s = 0 := Nat.div_eq_of_lt (by omega)
      simp [ht]
  | succ n ih =>
      intro l hl
      rcases eq_or_ne l [] with h0 | h0
      · subst h0
        have ht : total_pages 0 s = 0 := Nat.div_eq_of_lt (by omega)
        simp [ht]
      · have hlen : 0 < l.length := List.length_pos.mpr h0
        rw [total_pages_succ l.length s hs hlen, List.range_succ_eq_map,
          List.map_cons, List.flatten_cons, List.map_map]
        have hmap : (List.range (total_pages (l.length - s) s)).map
            ((fun p => (l.drop (p * s)).take s) ∘ Nat.succ) =
            (List.range (total_pages (l.length - s) s)).map
            (fun p => ((l.drop s).drop (p * s)).take s) := by
          apply List.map_congr_left
          intro p _
          simp only [Function.comp_apply]
          rw [List.drop_drop]
          rw [Nat.succ_mul, Nat.add_comm]
        rw [hmap]
        have hdl : (l.drop s).length = l.length - s := List.length_drop s l
        have ih' := ih (l.drop s) (by rw [hdl]; omega)
        rw [hdl] at ih'
        rw [ih', Nat.zero_mul, List.drop_zero, List.take_append_drop]

/-- C5: `paginate_images items p s` is exactly the slice
`items[p*s : p*s + s]` (drop `p*s` then take `s`) paired with the full
length; the slices for `p = 0 … total_pages - 1` concatenate back to
`items`; and an out-of-range `p` yields the empty slice with the length
still reported correctly. -/
theorem C5_paginate {α : Type} (items : List α) (p s : Nat) (hs : 0 < s) :
    paginate_images items p s = ((items.drop (p * s)).take s, items.length) ∧
    ((List.range (total_pages items.length s)).map
        (fun i => (paginate_images items i s).1)).flatten = items ∧
    (total_pages items.length s ≤ p →
      (paginate_images items p s).1 = [] ∧
      (paginate_images items p s).2 = items.length) := by
  refine ⟨rfl, ?_, fun hp => ⟨?_, rfl⟩⟩
  · simpa [paginate_images] using
      pages_flatten s hs items.length items le_rfl
  · have hle := length_le_mul_of_pages_le items.length s p hs hp
    simp [paginate_images, List.drop_eq_nil_of_le hle]

/-- Concrete C5 run (the spec's scenario): ten items, page 1, size 4 gives
`items[4:8]` and total 10; pages 0,1,2 concatenate to the whole list; the
out-of-range page 3 gives the empty slice with total 10. -/
theorem C5_witness :
    paginate_images [0, 1, 2, 3, 4, 5, 6, 7, 8, 9] 1 4 =
      (([0, 1, 2, 3, 4, 5, 6, 7, 8, 9].drop (1 * 4)).take 4, 10) ∧
    (paginate_images [0, 1, 2, 3, 4, 5, 6, 7, 8, 9] 3 4).1 = [] ∧
    (paginate_images [0, 1, 2, 3, 4, 5, 6, 7, 8, 9] 3 4).2 = 10 := by
  have h1 := C5_paginate [0, 1, 2, 3, 4, 5, 6, 7, 8, 9] 1 4 (by decide)
  have h3 := C5_paginate [0, 1, 2, 3, 4, 5, 6, 7, 8, 9] 3 4 (by decide)
  have ho := h3.2.2 (by decide)
  exact ⟨h1.1, ho.1, ho.2⟩

/-! ## Listing theorems -/

/-- C6: on a successful listing response, `list_images` surfaces exactly
the entries whose key has a recognized image extension (case-insensitively)
and whose size is strictly positive — one `ImageEntry` per qualifying
object, zero-byte and non-image keys silently excluded — sorted by
`last_modified` descending, and never more entries than the response holds
(the gateway returns at most `max_keys = 1000` of them). -/
theorem C6_list_images (contents : List S3Object) (maxk : Nat) :
    (∀ e : ImageEntry, e ∈ (list_images (.ok contents)).1 ↔
      ∃ o ∈ contents, is_image_object o = true ∧ mkImageEntry o = e) ∧
    (list_images (.ok contents)).1.Perm
      ((contents.filter is_image_object).map mkImageEntry) ∧
    List.Sorted by_recent (list_images (.ok contents)).1 ∧
    (contents.length ≤ maxk → (list_images (.ok contents)).1.length ≤ maxk) := by
  refine ⟨fun e => ?_, ?_, ?_, fun hmk => ?_⟩
  · rw [show (list_images (.ok contents)).1 = List.insertionSort by_recent
        ((contents.filter is_image_object).map mkImageEntry) from rfl]
    rw [(List.perm_insertionSort by_recent _).mem_iff]
    simp [List.mem_map, List.mem_filter, and_assoc]
  · exact List.perm_insertionSort by_recent _
  · exact List.sorted_insertionSort by_recent _
  · calc (list_images (.ok contents)).1.length
        = ((contents.filter is_image_object).map mkImageEntry).length :=
          (List.perm_insertionSort by_recent _).length_eq
      _ = (contents.filter is_image_object).length := List.length_map _ _
      _ ≤ contents.length := List.length_filter_le _ _
      _ ≤ maxk := hmk

/-- Concrete C6 run: of four objects — a `.JPG` of size 5000, a `.txt`, a
zero-byte `.png`, and a `.png` of size 7 — exactly the two positive-size
image keys survive, newest first, within the 1000-entry cap. -/
theorem C6_witness :
    (list_images (.ok [⟨"wedding/Cover.JPG", 5000, 10⟩,
        ⟨"wedding/readme.txt", 4, 99⟩, ⟨"wedding/empty.png", 0, 50⟩,
        ⟨"cake.png", 7, 30⟩])).1.Perm
      (([⟨"wedding/Cover.JPG", 5000, 10⟩, ⟨"wedding/readme.txt", 4, 99⟩,
        ⟨"wedding/empty.png", 0, 50⟩,
        ⟨"cake.png", 7, 30⟩].filter is_image_object).map mkImageEntry) ∧
    List.Sorted by_recent
      (list_images (.ok [⟨"wedding/Cover.JPG", 5000, 10⟩,
        ⟨"wedding/readme.txt", 4, 99⟩, ⟨"wedding/empty.png", 0, 50⟩,
        ⟨"cake.png", 7, 30⟩])).1 ∧
    (list_images (.ok [⟨"wedding/Cover.JPG", 5000, 10⟩,
        ⟨"wedding/readme.txt", 4, 99⟩, ⟨"wedding/empty.png", 0, 50⟩,
        ⟨"cake.png", 7, 30⟩])).1.length ≤ 1000 := by
  have h := C6_list_images [⟨"wedding/Cover.JPG", 5000, 10⟩,
    ⟨"wedding/readme.txt", 4, 99⟩, ⟨"wedding/empty.png", 0, 50⟩,
    ⟨"cake.png", 7, 30⟩] 1000
  exact ⟨h.2.1, h.2.2.1, h.2.2.2 (by decide)⟩

/-- C8: errors degrade, never propagate — a `ClientError` during listing
yields the empty sequence plus the surfaced warning text, a missing client
yields the empty sequence, a transport error or a decode failure during
thumbnail or fullscreen generation yields `none`. -/
theorem C8_error_degradation (msg err : String)
    (decode : List Nat → Option PILImage) (data : List Nat)
    (hdec : decode data = none) :
    list_images (.clientError msg) =
      ([], some ("Error listing images: " ++ msg)) ∧
    list_images .noClient = ([], none) ∧
    get_image_thumbnail decode (.error err) = none ∧
    get_fullscreen_image decode (.error err) = none ∧
    (data ≠ [] →
      get_image_thumbnail decode (.ok data) = none ∧
      get_fullscreen_image decode (.ok data) = none) := by
  refine ⟨rfl, rfl, rfl, rfl, fun hd => ?_⟩
  have hlen : ¬ data.length = 0 := fun hz => hd (List.length_eq_zero.mp hz)
  exact ⟨by simp [get_image_thumbnail, hlen, hdec],
    by simp [get_fullscreen_image, hlen, hdec]⟩

/-- Concrete C8 run: a failing decoder and a transport error both produce
`none`; a listing `ClientError` produces the empty list and a warning. -/
theorem C8_witness :
    get_image_thumbnail (fun _ => none) (.ok [1]) = none ∧
    get_fullscreen_image (fun _ => none) (.error "denied") = none ∧
    list_images (.clientError "denied") =
      ([], some ("Error listing images: " ++ "denied")) := by
  have h := C8_error_degradation "denied" "denied" (fun _ => none) [1] rfl
  exact ⟨(h.2.2.2.2 (by decide)).1, h.2.2.2.1, h.1⟩

/-- C9: thumbnail generation is deterministic — the pipeline is a pure
function of the fetched bytes (and decoder), so two runs on the same
input produce identical encoded results, for both variants. -/
theorem C9_thumbnail_deterministic (decode : List Nat → Option PILImage)
    (f1 f2 : Except String (List Nat)) (hf : f1 = f2) :
    get_image_thumbnail decode f1 = get_image_thumbnail decode f2 ∧
    get_fullscreen_image decode f1 = get_fullscreen_image decode f2 := by
  rw [hf]
  exact ⟨rfl, rfl⟩

/-- Concrete C9 run: two evaluations on the same fetched payload agree. -/
theorem C9_witness :
    get_image_thumbnail (fun _ => some ⟨"RGB", 10, 10⟩) (.ok [1]) =
      get_image_thumbnail (fun _ => some ⟨"RGB", 10, 10⟩) (.ok [1]) :=
  (C9_thumbnail_deterministic (fun _ => some ⟨"RGB", 10, 10⟩)
    (.ok [1]) (.ok [1]) rfl).1

/-! ## Thumbnail-size bound -/

/-- `round_aspect q key` never exceeds an integer bound `b ≥ 1` that `q`
itself does not exceed: both candidate roundings are at most `⌈q⌉ ≤ b`. -/
theorem round_aspect_toNat_le (q : ℚ) (key : ℤ → ℚ) (b : Nat) (hb : 0 < b)
    (hq : q ≤ (b : ℚ)) : (round_aspect q key).toNat ≤ b := by
  rw [Int.toNat_le]
  unfold round_aspect
  apply max_le
  · have hceil : ⌈q⌉ ≤ (b : ℤ) := Int.ceil_le.mpr (by exact_mod_cast hq)
    split
    · exact le_trans (Int.floor_le_ceil q) hceil
    · exact hceil
  · exact_mod_cast hb

/-- Pillow's `thumbnail((x, y))` never produces a dimension above its
bound: either the image already fits, or the bounded side is set to its
bound and the other side rounds a value that is at most its bound. -/
theorem pil_thumbnail_size_le (w h x y : Nat) (hw : 0 < w) (hh : 0 < h)
    (hx : 0 < x) (hy : 0 < y) :
    (pil_thumbnail_size w h x y).1 ≤ x ∧ (pil_thumbnail_size w h x y).2 ≤ y := by
  have hw' : (0 : ℚ) < (w : ℚ) := by exact_mod_cast hw
  have hh' : (0 : ℚ) < (h : ℚ) := by exact_mod_cast hh
  have hy' : (0 : ℚ) < (y : ℚ) := by exact_mod_cast hy
  have haspect : (0 : ℚ) < (w : ℚ) / (h : ℚ) := div_pos hw' hh'
  unfold pil_thumbnail_size
  by_cases hin : w ≤ x ∧ h ≤ y
  · simp only [if_pos hin]
    exact hin
  · rw [if_neg hin]
    by_cases hc : (w : ℚ) / (h : ℚ) ≤ (x : ℚ) / (y : ℚ)
    · rw [if_pos hc]
      refine ⟨?_, le_rfl⟩
      have hql : (y : ℚ) * ((w : ℚ) / (h : ℚ)) ≤ (x : ℚ) := by
        have := (le_div_iff₀ hy').mp hc
        linarith [this]
      exact round_aspect_toNat_le _ _ x hx hql
    · rw [if_neg hc]
      refine ⟨le_rfl, ?_⟩
      have hlt : (x : ℚ) / (y : ℚ) < (w : ℚ) / (h : ℚ) := lt_of_not_le hc
      have hxy : (x : ℚ) < (w : ℚ) / (h : ℚ) * (y : ℚ) :=
        (div_lt_iff₀ hy').mp hlt
      have hql : (x : ℚ) / ((w : ℚ) / (h : ℚ)) ≤ (y : ℚ) := by
        rw [div_le_iff₀ haspect]
        linarith [hxy]
      exact round_aspect_toNat_le _ _ y hy hql

/-- `convert('RGB')` does not change dimensions. -/
theorem convert_for_jpeg_width (img : PILImage) :
    (convert_for_jpeg img).width = img.width := by
  unfold convert_for_jpeg; split <;> rfl

/-- `convert('RGB')` does not change dimensions. -/
theorem convert_for_jpeg_height (img : PILImage) :
    (convert_for_jpeg img).height = img.height := by
  unfold convert_for_jpeg; split <;> rfl

/-- The successful path of `get_image_thumbnail` as one equation. -/
theorem get_image_thumbnail_ok (decode : List Nat → Option PILImage)
    (data : List Nat) (img : PILImage) (hlen : ¬ data.length = 0)
    (hdec : decode data = some img) :
    get_image_thumbnail decode (.ok data) =
      some { mode := (convert_for_jpeg img).mode
             width := (pil_thumbnail_size (convert_for_jpeg img).width
               (convert_for_jpeg img).height 400 400).1
             height := (pil_thumbnail_size (convert_for_jpeg img).width
               (convert_for_jpeg img).height 400 400).2
             resample := "LANCZOS"
             format := "JPEG"
             quality := 85
             optimize := true
             base64 := true } := by
  simp [get_image_thumbnail, hlen, hdec, pil_thumbnail, MAX_IMAGE_SIZE]

/-- The successful path of `get_fullscreen_image` as one equation:
the resize is conditional on a dimension exceeding 1440. -/
theorem get_fullscreen_image_ok (decode : List Nat → Option PILImage)
    (data : List Nat) (img : PILImage) (hlen : ¬ data.length = 0)
    (hdec : decode data = some img) :
    get_fullscreen_image decode (.ok data) =
      some { mode := (convert_for_jpeg img).mode
             width := if 1440 < (convert_for_jpeg img).width ∨
                 1440 < (convert_for_jpeg img).height then
               (pil_thumbnail_size (convert_for_jpeg img).width
                 (convert_for_jpeg img).height 1440 1440).1
             else (convert_for_jpeg img).width
             height := if 1440 < (convert_for_jpeg img).width ∨
                 1440 < (convert_for_jpeg img).height then
               (pil_thumbnail_size (convert_for_jpeg img).width
                 (convert_for_jpeg img).height 1440 1440).2
             else (convert_for_jpeg img).height
             resample := "LANCZOS"
             format := "JPEG"
             quality := 95
             optimize := true
             base64 := true } := by
  rcases em (1440 < (convert_for_jpeg img).width ∨
      1440 < (convert_for_jpeg img).height) with hbig | hbig <;>
    simp [get_fullscreen_image, hlen, hdec, FULLSCREEN_IMAGE_SIZE,
      pil_thumbnail, hbig]

/-- C7: for any decoder and payload — the empty payload yields `none`;
otherwise a decodable image is re-encoded as an optimized JPEG (quality 85
for the preview variant, 95 for fullscreen) in base64 form, with the mode
kept when it is RGB or plain grayscale and converted to RGB otherwise, and
with neither output dimension exceeding the variant's bound (400 for the
preview, 1440 for fullscreen — where the resize, with LANCZOS resampling,
only happens when a bound is exceeded). -/
theorem C7_thumbnail_pipeline (decode : List Nat → Option PILImage)
    (data : List Nat) (img : PILImage) (hdata : data ≠ [])
    (hdec : decode data = some img) (hw : 0 < img.width)
    (hh : 0 < img.height) :
    get_image_thumbnail decode (.ok []) = none ∧
    get_fullscreen_image decode (.ok []) = none ∧
    ∃ e f : EncodedImage,
      get_image_thumbnail decode (.ok data) = some e ∧
      get_fullscreen_image decode (.ok data) = some f ∧
      e.format = "JPEG" ∧ e.quality = 85 ∧ e.optimize = true ∧
      e.resample = "LANCZOS" ∧ e.base64 = true ∧
      f.format = "JPEG" ∧ f.quality = 95 ∧ f.optimize = true ∧
      f.base64 = true ∧
      (img.mode = "RGB" ∨ img.mode = "L" →
        e.mode = img.mode ∧ f.mode = img.mode) ∧
      (¬(img.mode = "RGB" ∨ img.mode = "L") →
        e.mode = "RGB" ∧ f.mode = "RGB") ∧
      e.width ≤ 400 ∧ e.height ≤ 400 ∧ f.width ≤ 1440 ∧ f.height ≤ 1440 := by
  have hlen : ¬ data.length = 0 := fun hz => hdata (List.length_eq_zero.mp hz)
  have hw1 : 0 < (convert_for_jpeg img).width := by
    rw [convert_for_jpeg_width]; exact hw
  have hh1 : 0 < (convert_for_jpeg img).height := by
    rw [convert_for_jpeg_height]; exact hh
  have hb400 := pil_thumbnail_size_le (convert_for_jpeg img).width
    (convert_for_jpeg img).height 400 400 hw1 hh1 (by omega) (by omega)
  have hb1440 := pil_thumbnail_size_le (convert_for_jpeg img).width
    (convert_for_jpeg img).height 1440 1440 hw1 hh1 (by omega) (by omega)
  have hmode : ∀ hm : img.mode = "RGB" ∨ img.mode = "L",
      (convert_for_jpeg img).mode = img.mode := by
    intro hm; unfold convert_for_jpeg; rw [if_pos hm]
  have hmode' : ∀ _hm : ¬ (img.mode = "RGB" ∨ img.mode = "L"),
      (convert_for_jpeg img).mode = "RGB" := by
    intro hm; unfold convert_for_jpeg; rw [if_neg hm]
  refine ⟨by simp [get_image_thumbnail], by simp [get_fullscreen_image],
    _, _, get_image_thumbnail_ok decode data img hlen hdec,
    get_fullscreen_image_ok decode data img hlen hdec,
    rfl, rfl, rfl, rfl, rfl, rfl, rfl, rfl, rfl,
    fun hm => ⟨hmode hm, hmode hm⟩, fun hm => ⟨hmode' hm, hmode' hm⟩,
    hb400.1, hb400.2, ?_, ?_⟩
  · dsimp only
    split
    · exact hb1440.1
    · next hsml => omega
  · dsimp only
    split
    · exact hb1440.2
    · next hsml => omega

/-- Concrete C7 run: a 300×200 palette-mode image decodes, is converted to
RGB, fits both bounds unchanged, and both variants produce an encoding. -/
theorem C7_witness :
    (get_image_thumbnail (fun _ => some ⟨"P", 300, 200⟩)
      (.ok [1])).isSome = true ∧
    (get_fullscreen_image (fun _ => some ⟨"P", 300, 200⟩)
      (.ok [1])).isSome = true := by
  obtain ⟨-, -, e, f, he, hf, -⟩ :=
    C7_thumbnail_pipeline (fun _ => some ⟨"P", 300, 200⟩) [1] ⟨"P", 300, 200⟩
      (by decide) rfl (by decide) (by decide)
  exact ⟨by rw [he]; rfl, by rw [hf]; rfl⟩

end SDH
